import Mathlib

/-!
Verification development for the `animation-thread` package
(`src/index.ts` and `src/mixins/requestInterval.ts`).

The TypeScript source is shallowly embedded: JavaScript numbers are
modelled by the inductive type `JS` (finite rationals plus the special
values `Infinity`, `-Infinity`, `NaN` and `undefined`), stateful code
becomes explicit state passing (`TState`, `step`, `runFrom`), and the
per-frame clock is modelled by an explicit timestamp schedule
`ts : ℕ → ℚ`.  Floating-point rounding of IEEE doubles is abstracted to
exact rational arithmetic; `parseInt(String(v))` is modelled as
truncation toward zero, which is exact for every finite `v` with
`|v| < 10^21` (below the scientific-notation threshold of `String`).

The scheduler loop is embedded as written.  In particular the
`timeline.push` of `index.ts` lines 311-318 evaluates
`this.smooth(multiplier)` (line 314) on every fired tick; the loop
callback is a plain function invoked by `requestAnimationFrame`, so
`this` is `undefined` in the ES module (or `window`, which has no
`smooth` property), and the expression throws a `TypeError` before the
props object is built or the user handler is called.  The truthy
exception reaches the catch of lines 362-370, which clears the
countdown, so every run ends on its first fired tick and
`handler(props)` (line 341) and the post-handler writes (lines
344-360) are dead code.  The embedding `firedBody` reflects this.
-/

namespace AnimationThread

/-- Model of a JavaScript number-or-undefined value: a finite rational,
positive or negative infinity, NaN, or `undefined`/`null`.  Finite zero
is taken to be `+0` (the package never produces `-0`). -/
inductive JS where
  | undef : JS
  | nan : JS
  | inf : JS
  | ninf : JS
  | fin : ℚ → JS
deriving DecidableEq, Repr

/-- Truncation toward zero, the behaviour of JavaScript
`parseInt(String(v))` on a finite number `v` (for `|v| < 10^21`). -/
def ratTrunc (q : ℚ) : ℤ := if 0 ≤ q then ⌊q⌋ else ⌈q⌉

/-- JavaScript `parseInt(String(v))`: truncates a finite number toward
zero; `undefined`, `NaN` and the infinities stringify to words whose
parse is `NaN`. -/
def JS.parseInt : JS → JS
  | JS.fin q => JS.fin ((ratTrunc q : ℤ) : ℚ)
  | _ => JS.nan

/-- JavaScript truthiness of a number-or-undefined value: `0`, `NaN`
and `undefined` are falsy, every other number is truthy. -/
def JS.truthy : JS → Bool
  | JS.fin q => decide (q ≠ 0)
  | JS.inf => true
  | JS.ninf => true
  | _ => false

/-- JavaScript `<` on numbers: any comparison involving `NaN` (and
hence `undefined`, which coerces to `NaN`) is false. -/
def JS.lt : JS → JS → Bool
  | JS.fin a, JS.fin b => decide (a < b)
  | JS.fin _, JS.inf => true
  | JS.ninf, JS.fin _ => true
  | JS.ninf, JS.inf => true
  | _, _ => false

/-- JavaScript `<=` on numbers: false on `NaN`/`undefined`, and
`Infinity <= Infinity` is true. -/
def JS.le : JS → JS → Bool
  | JS.fin a, JS.fin b => decide (a ≤ b)
  | JS.fin _, JS.inf => true
  | JS.ninf, JS.fin _ => true
  | JS.ninf, JS.inf => true
  | JS.ninf, JS.ninf => true
  | JS.inf, JS.inf => true
  | _, _ => false

/-- JavaScript multiplication on numbers (`undefined` coerces to
`NaN`; `Infinity * 0 = NaN`). -/
def JS.mul : JS → JS → JS
  | JS.fin a, JS.fin b => JS.fin (a * b)
  | JS.inf, JS.fin b => if b = 0 then JS.nan else if 0 < b then JS.inf else JS.ninf
  | JS.fin a, JS.inf => if a = 0 then JS.nan else if 0 < a then JS.inf else JS.ninf
  | JS.ninf, JS.fin b => if b = 0 then JS.nan else if 0 < b then JS.ninf else JS.inf
  | JS.fin a, JS.ninf => if a = 0 then JS.nan else if 0 < a then JS.ninf else JS.inf
  | JS.inf, JS.inf => JS.inf
  | JS.ninf, JS.ninf => JS.inf
  | JS.inf, JS.ninf => JS.ninf
  | JS.ninf, JS.inf => JS.ninf
  | _, _ => JS.nan

/-- JavaScript subtraction of a finite number from a number. -/
def JS.subQ : JS → ℚ → JS
  | JS.fin a, q => JS.fin (a - q)
  | JS.inf, _ => JS.inf
  | JS.ninf, _ => JS.ninf
  | _, _ => JS.nan

/-- JavaScript `x - 1` (`Infinity - 1 = Infinity`). -/
def JS.subOne : JS → JS
  | JS.fin a => JS.fin (a - 1)
  | JS.inf => JS.inf
  | JS.ninf => JS.ninf
  | _ => JS.nan

/-- Animation status of a thread (`AnimationStatus` in
`src/_types/main.d.ts`): `"clean"` or `"dirty"`. -/
inductive Status where
  | clean : Status
  | dirty : Status
deriving DecidableEq, Repr

/-- Default thread options, `defaults` in `src/index.ts` lines 18-43. -/
structure Defaults where
  decimal : ℚ
  fps : ℚ
  limit : JS
  offset : ℚ
  speed : ℚ
  status : Status
  strict : Bool
  highResolution : Bool

/-- The `defaults` constant of `src/index.ts` lines 18-43. -/
def defaults : Defaults :=
  { decimal := 1000000
    fps := 30
    limit := JS.inf
    offset := 2
    speed := 1
    status := Status.clean
    strict := false
    highResolution := false }

/-- The `fpsToInterval` function, `src/index.ts` lines 50-52:
`1000 / parseInt(String(value != null ? value : defaults.fps))`.
The `value != null` test is false exactly for `undefined`/`null`.
Division follows JavaScript: `1000 / 0 = Infinity`, `1000 / NaN = NaN`;
`JS.parseInt` only returns finite values or `NaN`. -/
def fpsToInterval (value : JS) : JS :=
  match JS.parseInt (if value = JS.undef then JS.fin defaults.fps else value) with
  | JS.fin q => if q = 0 then JS.inf else JS.fin (1000 / q)
  | _ => JS.nan

/-- The `smooth` rounding helper, `src/index.ts` lines 59-61:
`Math.round(value * defaults.decimal) / defaults.decimal`.  JavaScript
`Math.round` rounds half toward positive infinity, which is Mathlib's
`round` (`⌊x + 1/2⌋`). -/
def smooth (value : ℚ) : ℚ :=
  ((round (value * defaults.decimal) : ℤ) : ℚ) / defaults.decimal

/-- Characterization of `fpsToInterval` on a finite input. -/
@[simp] theorem fpsToInterval_fin (q : ℚ) :
    fpsToInterval (JS.fin q) =
      if ratTrunc q = 0 then JS.inf else JS.fin (1000 / ((ratTrunc q : ℤ) : ℚ)) := by
  unfold fpsToInterval
  rw [if_neg (by simp)]
  simp only [JS.parseInt]
  rcases eq_or_ne (ratTrunc q) 0 with h | h
  · simp [h]
  · have h2 : ((ratTrunc q : ℤ) : ℚ) ≠ 0 := by exact_mod_cast h
    simp [h, h2]

/-- Value of `fpsToInterval` on an undefined input. -/
@[simp] theorem fpsToInterval_undef : fpsToInterval JS.undef = JS.fin (1000 / 30) := by
  unfold fpsToInterval
  rw [if_pos rfl]
  norm_num [JS.parseInt, ratTrunc, defaults]

/-- C6 counterexample: the claim says inputs `<= 0` (and non-numeric
inputs) map to the default interval `1000/30`, and positive inputs map
to `1000 / max(1, floor value)`; but `fpsToInterval(0) = Infinity`
(division by the truncation `parseInt("0") = 0`), not `1000/30`, and
`fpsToInterval(1/2) = Infinity` as well, not `1000/1`. -/
theorem fpsToInterval_default_claim_false :
    fpsToInterval (JS.fin 0) = JS.inf ∧ JS.inf ≠ JS.fin (1000 / 30) ∧
    fpsToInterval (JS.fin (1 / 2)) = JS.inf ∧ JS.inf ≠ JS.fin (1000 / 1) := by
  refine ⟨?_, by simp, ?_, by simp⟩
  · norm_num [ratTrunc]
  · norm_num [ratTrunc]

/-- C6 (amended): `fpsToInterval` is a pure total function with
`fpsToInterval v = 1000 / trunc v` whenever the truncation of `v`
toward zero is nonzero (in particular, for `v ≥ 1` this is
`1000 / ⌊v⌋` as the spec states for positive rates); for `0 ≤ v < 1`
(truncation `0`) the result is `Infinity`, for `NaN` it is `NaN`, and
only a `null`/`undefined` input falls back to the default rate
`30`, giving `1000/30`. -/
theorem fpsToInterval_amended (q : ℚ) :
    (ratTrunc q ≠ 0 → fpsToInterval (JS.fin q) = JS.fin (1000 / ((ratTrunc q : ℤ) : ℚ))) ∧
    (ratTrunc q = 0 → fpsToInterval (JS.fin q) = JS.inf) ∧
    (0 ≤ q → ratTrunc q = ⌊q⌋) ∧
    fpsToInterval JS.undef = JS.fin (1000 / 30) ∧
    fpsToInterval JS.nan = JS.nan := by
  refine ⟨?_, ?_, ?_, by simp, ?_⟩
  · intro h
    simp [h]
  · intro h
    simp [h]
  · intro h
    simp [ratTrunc, h]
  · unfold fpsToInterval
    simp [JS.parseInt]

/-- C6 witness: the amended theorem evaluated at the concrete input
`45/2`, whose truncation is `22`. -/
theorem fpsToInterval_amended_witness :
    fpsToInterval (JS.fin (45 / 2)) = JS.fin (1000 / 22) := by
  have htr : ratTrunc (45 / 2) = 22 := by norm_num [ratTrunc]
  have h := (fpsToInterval_amended (45 / 2)).1 (by rw [htr]; norm_num)
  rw [h, htr]
  norm_num

@[simp] theorem JS.fin_ne_nan (q : ℚ) : (JS.fin q = JS.nan) = False :=
  eq_false fun h => JS.noConfusion h

@[simp] theorem JS.fin_ne_undef (q : ℚ) : (JS.fin q = JS.undef) = False :=
  eq_false fun h => JS.noConfusion h

@[simp] theorem JS.fin_ne_inf (q : ℚ) : (JS.fin q = JS.inf) = False :=
  eq_false fun h => JS.noConfusion h

@[simp] theorem JS.fin_ne_ninf (q : ℚ) : (JS.fin q = JS.ninf) = False :=
  eq_false fun h => JS.noConfusion h

@[simp] theorem JS.inf_ne_nan : (JS.inf = JS.nan) = False :=
  eq_false fun h => JS.noConfusion h

@[simp] theorem JS.inf_ne_undef : (JS.inf = JS.undef) = False :=
  eq_false fun h => JS.noConfusion h

@[simp] theorem JS.inf_ne_fin (q : ℚ) : (JS.inf = JS.fin q) = False :=
  eq_false fun h => JS.noConfusion h

@[simp] theorem JS.undef_ne_nan : (JS.undef = JS.nan) = False :=
  eq_false fun h => JS.noConfusion h

@[simp] theorem JS.mul_fin_fin (a b : ℚ) : JS.mul (JS.fin a) (JS.fin b) = JS.fin (a * b) := rfl

@[simp] theorem JS.lt_fin_fin (a b : ℚ) : JS.lt (JS.fin a) (JS.fin b) = decide (a < b) := rfl

@[simp] theorem JS.lt_fin_inf (a : ℚ) : JS.lt (JS.fin a) JS.inf = true := rfl

@[simp] theorem JS.lt_inf_fin (a : ℚ) : JS.lt JS.inf (JS.fin a) = false := rfl

@[simp] theorem JS.le_fin_fin (a b : ℚ) : JS.le (JS.fin a) (JS.fin b) = decide (a ≤ b) := rfl

@[simp] theorem JS.le_fin_inf (a : ℚ) : JS.le (JS.fin a) JS.inf = true := rfl

@[simp] theorem JS.subOne_fin (a : ℚ) : JS.subOne (JS.fin a) = JS.fin (a - 1) := rfl

@[simp] theorem JS.subQ_fin (a q : ℚ) : JS.subQ (JS.fin a) q = JS.fin (a - q) := rfl

@[simp] theorem JS.subQ_inf (q : ℚ) : JS.subQ JS.inf q = JS.inf := rfl

@[simp] theorem JS.truthy_fin (q : ℚ) : (JS.fin q).truthy = decide (q ≠ 0) := rfl

@[simp] theorem JS.parseInt_fin (q : ℚ) :
    JS.parseInt (JS.fin q) = JS.fin ((ratTrunc q : ℤ) : ℚ) := rfl

/-- Immutable per-run configuration of `requestAnimationThread`
(the `fps` argument and the destructured options of lines 114-126).
`start` is the creation timestamp recorded at line 399. -/
structure Config where
  fps : ℚ
  limit : JS
  strict : Bool
  speed : ℚ
  start : ℚ

/-- Normalization of a plain-number `options` argument, lines 114-119:
`{ limit: options || defaults.limit }`.  A falsy numeric options value
(`0` or `NaN`) therefore yields the default unlimited run. -/
def numericOptionsLimit (options : JS) : JS :=
  if options.truthy then options else defaults.limit

/-- The `_fps` alias of line 129: `parseInt(String(currentFPS)) || fps`
(the truncation of the running FPS, or the initial `fps` argument when
that truncation is `0`). -/
def fpsAlias (fps currentFPS : ℚ) : ℚ :=
  if ratTrunc currentFPS = 0 then fps else ((ratTrunc currentFPS : ℤ) : ℚ)

/-- Mutable state of a running animation thread: the closure variables
of `requestAnimationThread` read or written by the scheduler loop and
the control surface.  The purely diagnostic variables (`maxFps`,
`currentFrame`, `timeline`, `actualTimestamp`, the idle callbacks and
the `interval` fallback handle) are not modelled: they feed no decision
made by the loop (`maxFps` only reaches the unused local `useFPS`). -/
structure TState where
  frame : ℕ
  tick : ℤ
  tock : ℤ
  treshold : ℚ
  previousTimestamp : ℚ
  status : Status
  index : JS
  currentFPS : ℚ
  previousFPS : ℚ
  fpsInterval : JS
  updateIndex : Bool
  currentSpeed : ℚ
deriving DecidableEq, Repr

/-- The initial countdown of the loop closure, line 396:
`isNaN(limit) ? Infinity : _limit()` with `_limit() = limit * _fps()`. -/
def initIndex (cfg : Config) : JS :=
  if cfg.limit = JS.nan then JS.inf
  else JS.mul cfg.limit (JS.fin (fpsAlias cfg.fps cfg.fps))

/-- The initial closure state of `requestAnimationThread` (lines
83-126 and 398-402).  `cfg.speed` is the already-parsed speed option
(`isNaN(parseFloat(speed)) ? defaults.speed : speed`, line 125; a
rational `cfg.speed` is always numeric, so it is kept as is). -/
def initState (cfg : Config) : TState :=
  { frame := 0
    tick := 0
    tock := 0
    treshold := 0
    previousTimestamp := 0
    status := defaults.status
    index := initIndex cfg
    currentFPS := cfg.fps
    previousFPS := cfg.fps
    fpsInterval := fpsToInterval (JS.fin cfg.fps)
    updateIndex := false
    currentSpeed := cfg.speed }

/-- The `throttle` control, lines 185-199.  The body of the deferred
`requestAnimationFrame` callback (lines 190-196) is modelled as applied
atomically before the next loop invocation, which is exactly when the
host delivers it.  Returns the pair of the `result` return value and
the updated state. -/
def applyThrottle (cfg : Config) (value : JS) (s : TState) : JS × TState :=
  let result := if value.truthy then fpsToInterval value else JS.fin 0
  let newFPS :=
    match JS.parseInt value with
    | JS.fin q => if q = 0 then fpsAlias cfg.fps s.currentFPS else q
    | _ => fpsAlias cfg.fps s.currentFPS
  (result,
    { s with
      previousFPS := s.currentFPS
      currentFPS := newFPS
      fpsInterval := result
      updateIndex := true })

/-- The `pause` control, line 438: `throttle(0)`. -/
def pauseT (cfg : Config) (s : TState) : JS × TState :=
  applyThrottle cfg (JS.fin 0) s

/-- The `restore` control, line 447: `throttle(fps)` with the initial
`fps` argument. -/
def restoreT (cfg : Config) (s : TState) : JS × TState :=
  applyThrottle cfg (JS.fin cfg.fps) s

/-- The `resume` control, lines 451-452:
`throttle(isNaN(parseInt(value)) ? value : previousFPS || fps)`. -/
def resumeT (cfg : Config) (value : JS) (s : TState) : JS × TState :=
  applyThrottle cfg
    (if JS.parseInt value = JS.nan then value
     else JS.fin (if s.previousFPS ≠ 0 then s.previousFPS else cfg.fps))
    s

/-- The `accelerate` control, lines 425-429:
`currentSpeed = isNaN(parseFloat(value)) ? defaults.speed : value`.
Infinite speed arguments are outside the model (`currentSpeed` is kept
rational); no claim exercises them. -/
def accelerateT (value : JS) (s : TState) : ℚ × TState :=
  let sp := match value with
    | JS.fin q => q
    | _ => defaults.speed
  (sp, { s with currentSpeed := sp })

/-- C4: evaluation of the `resume` model at the failing inputs.
The code of lines 451-452 swaps the two arms of the intended
conditional, so `resume()` (no argument) forwards `undefined` to
`throttle`, which sets the interval to `0` — pausing the thread —
whereas `throttle(previousFPS || fps)` would restore a positive
interval; and `resume(24)` ignores the `24` and throttles to
`previousFPS || fps` instead.  The `pause`/`restore` halves of the
claim do hold, definitionally. -/
theorem resume_inverted_from_throttle :
    (∀ cfg s, pauseT cfg s = applyThrottle cfg (JS.fin 0) s) ∧
    (∀ cfg s, restoreT cfg s = applyThrottle cfg (JS.fin cfg.fps) s) ∧
    (resumeT { fps := 30, limit := JS.inf, strict := false, speed := 1, start := 0 }
        JS.undef
        (initState { fps := 30, limit := JS.inf, strict := false, speed := 1, start := 0 })
      ).2.fpsInterval = JS.fin 0 ∧
    (applyThrottle { fps := 30, limit := JS.inf, strict := false, speed := 1, start := 0 }
        (JS.fin 30)
        (initState { fps := 30, limit := JS.inf, strict := false, speed := 1, start := 0 })
      ).2.fpsInterval = JS.fin (1000 / 30) ∧
    JS.fin (0 : ℚ) ≠ JS.fin (1000 / 30) ∧
    (resumeT { fps := 30, limit := JS.inf, strict := false, speed := 1, start := 0 }
        (JS.fin 24)
        (initState { fps := 30, limit := JS.inf, strict := false, speed := 1, start := 0 })
      ).2.currentFPS = 30 := by
  refine ⟨fun cfg s => rfl, fun cfg s => rfl, ?_, ?_, by norm_num, ?_⟩
  · simp [resumeT, applyThrottle, JS.parseInt, JS.truthy]
  · norm_num [applyThrottle, JS.truthy, ratTrunc]
  · have h1 : JS.parseInt (JS.fin 24) = JS.fin 24 := by
      norm_num [JS.parseInt, ratTrunc]
    unfold resumeT
    rw [h1, if_neg (by simp)]
    norm_num [applyThrottle, initState, JS.parseInt, fpsAlias, ratTrunc]

/-- The seven control-surface methods of the returned `thread` object
(lines 424-456). -/
inductive SurfaceMethod where
  | pause
  | resume
  | restore
  | throttle
  | accelerate
  | fps
  | interval
deriving DecidableEq, Repr

/-- Presence map of the thread object's method properties: the object
literal of lines 424-456 has configurable properties, which the
teardown deletes. -/
def Surface : Type := SurfaceMethod → Bool

/-- The thread object as created: every method present. -/
def initSurface : Surface := fun _ => true

/-- The `request.finally` teardown, lines 410-420: every key of the
thread object is deleted (`Object.keys(thread).forEach(delete ...)`),
which runs when the completion signal resolves. -/
def teardownSurface (_ : Surface) : Surface := fun _ => false

/-- Outcome of a JavaScript method call through the thread object:
reading a deleted property yields `undefined`, and calling `undefined`
throws a `TypeError`. -/
inductive CallOutcome where
  | ok
  | typeError
deriving DecidableEq, Repr

/-- Calling a control-surface method through the thread object. -/
def callSurface (s : Surface) (m : SurfaceMethod) : CallOutcome :=
  if s m then CallOutcome.ok else CallOutcome.typeError

/-- C7 counterexample: after the completion signal resolves, the
teardown of lines 410-420 has deleted every method property, so calling
`thread.pause()` throws a `TypeError` instead of being a harmless
no-op — contradicting that the call "does not fail". -/
theorem surface_call_after_teardown_fails :
    callSurface (teardownSurface initSurface) SurfaceMethod.pause = CallOutcome.typeError ∧
    CallOutcome.typeError ≠ CallOutcome.ok := by
  exact ⟨rfl, by decide⟩

/-- C7 (amended): once the completion signal resolves, the teardown
deletes every property of the thread object, so every control-surface
method is gone and any call through the object fails with a
`TypeError` (it is not an inert no-op). -/
theorem surface_torn_down_after_resolution (s : Surface) (m : SurfaceMethod) :
    teardownSurface s m = false ∧
    callSurface (teardownSurface s) m = CallOutcome.typeError :=
  ⟨rfl, rfl⟩

/-- Handler-invocation count of `requestInterval`
(`src/mixins/requestInterval.ts` lines 18-34), driven by an explicit
fuel bound on timer firings.  The countdown `t` is the closure variable
of line 18; the guard is `typeof t === "undefined" || t-- > 0`
(post-decrement: the comparison reads `t`, then `t` decreases by one;
the decrement is skipped entirely when `t` is `undefined`, by
short-circuit).  `throwVal n` is `none` when the handler returns
normally on the firing of ordinal `n`, and `some e` when it throws a
value of truthiness `e`; the catch of lines 24-31 forces `t = 0` only
when the thrown value is truthy (`if (exception)`, line 27) — a falsy
thrown value (`null`, `0`, `""`, …) is swallowed without touching the
countdown. -/
def intervalCalls (throwVal : ℕ → Option Bool) : ℕ → JS → ℕ → ℕ
  | 0, _, _ => 0
  | fuel + 1, t, n =>
    if t = JS.undef ∨ JS.lt (JS.fin 0) t then
      let t1 := if t = JS.undef then t else JS.subOne t
      let t2 := if throwVal n = some true then JS.fin 0 else t1
      1 + intervalCalls throwVal fuel t2 (n + 1)
    else 0

/-- A countdown of zero never fires the handler again. -/
theorem intervalCalls_zero (throwVal : ℕ → Option Bool) (fuel n : ℕ) :
    intervalCalls throwVal fuel (JS.fin 0) n = 0 := by
  cases fuel with
  | zero => rfl
  | succ m =>
    simp [intervalCalls]

/-- Constructor discrimination for throw outcomes, stated as a
rewrite. -/
@[simp] theorem optNone_ne_someTrue : ((none : Option Bool) = some true) = False :=
  eq_false fun h => Option.noConfusion h

/-- Constructor discrimination for falsy throw outcomes, stated as a
rewrite. -/
@[simp] theorem optSomeFalse_ne_someTrue : ((some false : Option Bool) = some true) = False :=
  eq_false fun h => Bool.noConfusion (Option.some.inj h)

/-- C10 counterexample: a handler that throws a FALSY value on its
first invocation is caught at line 27 without the countdown reset, so
further invocations occur — with limit `3` all three invocations
happen, not one; and a fractional limit of `1/2` admits one
invocation, which already exceeds "at most limit times". -/
theorem requestInterval_claim_counterexample :
    intervalCalls (fun n => if n = 0 then some false else none) 5 (JS.fin 3) 0 = 3 ∧
    (1 : ℕ) < 3 ∧
    intervalCalls (fun _ => none) 5 (JS.fin (1 / 2)) 0 = 1 ∧
    ¬ ((intervalCalls (fun _ => none) 5 (JS.fin (1 / 2)) 0 : ℚ) ≤ 1 / 2) := by
  have h2 : intervalCalls (fun _ => none) 5 (JS.fin (1 / 2)) 0 = 1 := by
    norm_num [intervalCalls]
  refine ⟨?_, by norm_num, h2, ?_⟩
  · norm_num [intervalCalls]
  · rw [h2]
    norm_num

/-- C10 (amended): with a finite limit `q` the `requestInterval`
handler is invoked at most `max 0 ⌈q⌉` times, however long the timer
keeps firing — for the integer limits the package passes this is
exactly the limit, a fractional limit rounds up, and a non-positive
one admits no invocation; and on a firing where the handler throws a
TRUTHY value, the exception is caught, the countdown is forced to `0`,
and that firing is the last handler invocation (the total from that
point is exactly `1`).  A falsy thrown value does not stop the
interval (see the counterexample). -/
theorem requestInterval_budget_amended :
    (∀ (throwVal : ℕ → Option Bool) (fuel k : ℕ) (q : ℚ),
        (intervalCalls throwVal fuel (JS.fin q) k : ℤ) ≤ max 0 ⌈q⌉) ∧
    (∀ (throwVal : ℕ → Option Bool) (fuel k : ℕ) (t : JS), throwVal k = some true →
        (t = JS.undef ∨ JS.lt (JS.fin 0) t) →
        intervalCalls throwVal (fuel + 1) t k = 1) := by
  constructor
  · intro throwVal fuel
    induction fuel with
    | zero =>
      intro k q
      simp [intervalCalls]
    | succ m ih =>
      intro k q
      by_cases hq : (0 : ℚ) < q
      · have hguard : JS.fin q = JS.undef ∨ JS.lt (JS.fin 0) (JS.fin q) = true :=
          Or.inr (by simpa using hq)
        have hceil : 0 < ⌈q⌉ := Int.ceil_pos.mpr hq
        simp only [intervalCalls]
        rw [if_pos hguard]
        by_cases hth : throwVal k = some true
        · rw [if_pos hth, intervalCalls_zero]
          push_cast
          omega
        · rw [if_neg hth, if_neg (by simp : ¬(JS.fin q = JS.undef)), JS.subOne_fin]
          have h1 := ih (k + 1) (q - 1)
          have hc : ⌈q - 1⌉ = ⌈q⌉ - 1 := Int.ceil_sub_one q
          rw [hc] at h1
          push_cast at h1 ⊢
          omega
      · have hguard : ¬(JS.fin q = JS.undef ∨ JS.lt (JS.fin 0) (JS.fin q) = true) := by
          simp only [JS.fin_ne_undef, JS.lt_fin_fin, false_or, decide_eq_true_eq]
          exact hq
        simp only [intervalCalls]
        rw [if_neg hguard]
        simp
  · intro throwVal fuel k t hth hguard
    simp only [intervalCalls]
    rw [if_pos hguard, if_pos hth, intervalCalls_zero]

/-- C10 witness: the ceiling budget at the fractional limit `5/2`
(at most `3` invocations) with a never-throwing handler, and the
truthy-throw case at a countdown of `7` with a handler that throws a
genuine error object immediately. -/
theorem requestInterval_budget_amended_witness :
    (intervalCalls (fun _ => none) 10 (JS.fin (5 / 2)) 0 : ℤ) ≤ max 0 ⌈(5 / 2 : ℚ)⌉ ∧
    intervalCalls (fun _ => some true) (5 + 1) (JS.fin 7) 0 = 1 := by
  constructor
  · exact requestInterval_budget_amended.1 (fun _ => none) 10 0 (5 / 2)
  · exact requestInterval_budget_amended.2 (fun _ => some true) 5 0 (JS.fin 7) rfl
      (Or.inr (by simp only [JS.lt_fin_fin, decide_eq_true_eq]; norm_num))

/-- The strict-mode countdown rescale, `src/index.ts` lines 261-279:
with `newIndex = index * fpsRatio`, when `index !== newIndex` and the
`updateIndex` flag is set, the countdown becomes `newIndex` unless
`newIndex > _limit()`, in which case it is left unchanged; the flag is
cleared either way.  (`index` is never `NaN` in a reachable state, so
Lean equality agrees with JavaScript `!==` here.) -/
def strictRescale (index : JS) (fpsRatio : ℚ) (lim : JS) (updateIndex : Bool) : JS × Bool :=
  let newIndex := JS.mul index (JS.fin fpsRatio)
  if index ≠ newIndex ∧ updateIndex = true then
    (if JS.lt lim newIndex then index else newIndex, false)
  else (index, updateIndex)

/-- C5: exact behaviour of the rescale block of lines 261-279
(`strictRescale`).  The countdown is rescaled by
`fpsRatio = currentFPS / previousFPS` — the ratio across the most
recent throttle only — provided the rescaled value does not exceed
`_limit() = limit * currentRate`; when it would exceed that budget the
countdown instead keeps its previous value (line 272 is the no-op
`index = index`), which after successive rate changes can itself
exceed `limit * currentRate`, so the result is not clamped to the
budget; the gating flag is cleared in both cases, so the rescale
applies at most once per rate change.  In a run of the real program
this block executes at most once: the `TypeError` of line 314 ends the
run on the same fired tick that performs the rescale, and the catch
overwrites the rescaled countdown itself (only the flag write
survives, see `firedBody`). -/
theorem strictRescale_amended (i r : ℚ) (lim : JS) (u : Bool) :
    (u = true → i * r ≠ i → JS.lt lim (JS.fin (i * r)) = false →
        strictRescale (JS.fin i) r lim u = (JS.fin (i * r), false)) ∧
    (u = true → i * r ≠ i → JS.lt lim (JS.fin (i * r)) = true →
        strictRescale (JS.fin i) r lim u = (JS.fin i, false)) ∧
    (u = false → strictRescale (JS.fin i) r lim u = (JS.fin i, false)) ∧
    (i * r = i → strictRescale (JS.fin i) r lim u = (JS.fin i, u)) := by
  refine ⟨?_, ?_, ?_, ?_⟩
  · intro hu hne hlt
    have hne2 : JS.fin i ≠ JS.fin (i * r) := fun h => hne (JS.fin.inj h).symm
    simp only [strictRescale, JS.mul_fin_fin]
    rw [if_pos ⟨hne2, hu⟩, if_neg (by simp [hlt])]
  · intro hu hne hlt
    have hne2 : JS.fin i ≠ JS.fin (i * r) := fun h => hne (JS.fin.inj h).symm
    simp only [strictRescale, JS.mul_fin_fin]
    rw [if_pos ⟨hne2, hu⟩, if_pos hlt]
  · intro hu
    simp [strictRescale, hu]
  · intro heq
    simp [strictRescale, heq]

/-- C5 witness: a rescale from a countdown of `40` under a rate drop
from `4` to `2` frames per second with a budget of `10 * 2 = 20`:
`40 * (2/4) = 20` does not exceed the budget, so the countdown becomes
`20` and the flag clears. -/
theorem strictRescale_amended_witness :
    strictRescale (JS.fin 40) (2 / 4) (JS.fin 20) true = (JS.fin (40 * (2 / 4)), false) :=
  (strictRescale_amended 40 (2 / 4) (JS.fin 20) true).1 rfl (by norm_num)
    (by simp; norm_num)

/-- JavaScript division of a finite number by a number, as needed for
the strict-mode multiplier `fpsInterval / fpsToInterval(fps)` of line
249: a finite divisor gives a finite quotient, an infinite divisor
gives `0`.  (`fpsToInterval` of a rational never returns `NaN`, and its
finite results are nonzero, so the remaining cases are unreachable
there; Lean's `a / 0 = 0` convention is only a placeholder for them.) -/
def jsDivQ (a : ℚ) : JS → ℚ
  | JS.fin b => a / b
  | _ => 0

/-- The run duration constant of line 126:
`duration = limit * fps * fpsToInterval(fps)` (in milliseconds). -/
def durationJ (cfg : Config) : JS :=
  JS.mul (JS.mul cfg.limit (JS.fin cfg.fps)) (fpsToInterval (JS.fin cfg.fps))

/-- The completion payload passed to `stop` at lines 378-393
(`AnimationThreadResponse`).  The reserved word `end` is rendered
`endT`. -/
structure TResult where
  frame : ℕ
  fps : ℚ
  multiplier : ℚ
  endT : ℚ
  first : Bool
  index : JS
  treshold : ℚ
  last : Bool
  previousTimestamp : ℚ
  start : ℚ
  status : Status
  tick : ℤ
  timestamp : ℚ
  tock : ℤ
deriving DecidableEq, Repr

/-- Outcome of one invocation of the loop callback `fn`: either the
loop continues with the updated closure state, or the completion
promise is resolved. -/
inductive StepOut where
  | next : TState → StepOut
  | resolved : TResult → StepOut
deriving DecidableEq, Repr

/-- The lag constant of line 242 on a fired tick:
`lag = delta - fpsInterval`.  It is recomputed from the current
elapsed time alone; no lag value is kept in the closure between
ticks. -/
def tickLag (delta I : ℚ) : ℚ := delta - I

/-- The body of a fired tick (lines 228-370), taken after the firing
guard of line 228 with `I` the current finite interval and `delta` the
elapsed time of line 210.  The body never reaches the user handler:
the `timeline.push` of lines 311-318 evaluates
`this.smooth(multiplier)` (line 314), and the loop callback is a plain
function invoked by `requestAnimationFrame`, so `this` is `undefined`
in the ES module (or `window`, which has no `smooth` property), and
the expression throws a `TypeError` before the push completes.  The
truthy exception reaches the catch of lines 362-370, which sets
`index = 0`.  The props object of lines 320-339, the `handler(props)`
call of line 341 and the post-handler writes of lines 344-360
(`previousTimestamp`, `tock`, `treshold -= fpsInterval`, the countdown
decrement and the end-of-duration check) are therefore dead code: a
fired tick contributes exactly the writes made before line 311 plus
the `index = 0` of the catch.  The wall-clock check of lines 253-257
returns normally before the throw site when it triggers.  The `status`
write of lines 283-285 is unconditionally overwritten by lines 305-309
before any read; the pure dead locals `baseFps`/`useFPS`/`last` of
lines 243-245 and 262-263 are omitted; the rescaled countdown of lines
265-279 is overwritten by the catch, so only its flag write
survives. -/
def firedBody (cfg : Config) (s : TState) (now I delta : ℚ) : TState :=
  let frame := s.frame + 1
  let actualFPS : ℤ := round (1000 / (now - s.previousTimestamp))
  let lag := tickLag delta I
  let ratio := 1 + lag / I
  let multiplier :=
    if cfg.strict then ratio * jsDivQ I (fpsToInterval (JS.fin cfg.fps)) * s.currentSpeed
    else ratio * s.currentSpeed
  if JS.lt (durationJ cfg) (JS.fin (now - cfg.start)) then
    { s with frame := frame, index := JS.fin 0 }
  else
    let treshold1 := s.treshold + delta
    let fpsRatio := s.currentFPS / s.previousFPS
    let resc :=
      if cfg.strict then
        strictRescale s.index fpsRatio
          (JS.mul cfg.limit (JS.fin (fpsAlias cfg.fps s.currentFPS))) s.updateIndex
      else (s.index, s.updateIndex)
    let tick1 :=
      if multiplier < defaults.offset ∧ lag < I * defaults.offset
      then s.tick + 1 else s.tick + round multiplier
    let status2 :=
      if (actualFPS : ℚ) ≠ s.currentFPS then Status.dirty else defaults.status
    { s with
      frame := frame
      treshold := treshold1
      status := status2
      tick := tick1
      index := JS.fin 0
      updateIndex := resc.2 }

/-- The completion payload resolved at lines 378-393 from state `s` at
timestamp `now`. -/
def resolvePayload (cfg : Config) (s : TState) (now : ℚ) : TResult :=
  { frame := s.frame + 1
    fps := fpsAlias cfg.fps s.currentFPS
    multiplier := s.currentFPS / cfg.fps
    endT := now
    first := decide (s.tick ≤ 0)
    index := s.index
    treshold := s.treshold
    last := true
    previousTimestamp := s.previousTimestamp
    start := cfg.start
    status := s.status
    tick := s.tick
    timestamp := now
    tock := s.tock }

/-- One invocation of the loop callback `fn` (lines 202-395) at clock
timestamp `timestamp`, under `highResolution = false` (so `now` is the
raw callback timestamp, line 207).  The idle bookkeeping of lines
213-221 touches only unmodelled diagnostic state.  `previousTimestamp`
is written only by the dead code of line 344, so in every reachable
state it stays `0` and the delta of line 210 measures from `start`;
the definition keeps the source's `previousTimestamp || start`
anyway. -/
def step (cfg : Config) (s : TState) (timestamp : ℚ) : StepOut :=
  let now := timestamp
  if JS.lt (JS.fin 0) s.index then
    let delta := now - (if s.previousTimestamp ≠ 0 then s.previousTimestamp else cfg.start)
    if s.currentSpeed = 0 then StepOut.next { s with frame := s.frame + 1 }
    else
      match s.fpsInterval with
      | JS.fin I =>
        if I ≠ 0 ∧ I < delta then StepOut.next (firedBody cfg s now I delta)
        else StepOut.next { s with frame := s.frame + 1 }
      | _ => StepOut.next { s with frame := s.frame + 1 }
  else
    StepOut.resolved (resolvePayload cfg s now)

/-- Repeated invocation of the loop callback on the clock schedule
`ts` (invocation `k` is delivered at timestamp `ts k`), bounded by
`fuel` invocations.  Returns the completion payload when the promise
resolved within the fuel bound.  A resolved step ends the run: the
source stops rescheduling in that branch (the cancel/reschedule of
lines 217-221 only happens on the continue path). -/
def runFrom (cfg : Config) (ts : ℕ → ℚ) : ℕ → ℕ → TState → Option TResult
  | 0, _, _ => none
  | fuel + 1, k, s =>
    match step cfg s (ts k) with
    | StepOut.resolved r => some r
    | StepOut.next s1 => runFrom cfg ts fuel (k + 1) s1

/-- Reduction of a loop invocation to the fired body under the firing
guards of lines 209-228: a positive countdown, a nonzero speed, a
truthy finite interval and an elapsed time exceeding it. -/
theorem step_fired_of_guards (cfg : Config) (s : TState) (t I delta : ℚ)
    (hdelta : t - (if s.previousTimestamp ≠ 0 then s.previousTimestamp else cfg.start) = delta)
    (hidx : JS.lt (JS.fin 0) s.index = true)
    (hspeed : s.currentSpeed ≠ 0)
    (hI : s.fpsInterval = JS.fin I)
    (hne : I ≠ 0) (hlt : I < delta) :
    step cfg s t = StepOut.next (firedBody cfg s t I delta) := by
  simp only [step, hdelta, hI]
  rw [if_pos hidx, if_neg hspeed, if_pos ⟨hne, hlt⟩]

/-- Both exits of the fired body clear the countdown: the early return
of lines 253-257 and — on every other fired tick — the catch of lines
362-370 that receives the `this.smooth` `TypeError`. -/
theorem firedBody_index_zero (cfg : Config) (s : TState) (now I delta : ℚ) :
    (firedBody cfg s now I delta).index = JS.fin 0 := by
  simp only [firedBody]
  split
  · rfl
  · rfl

/-- The invocation after any fired tick resolves the completion
promise: the fired tick cleared the countdown, so the guard of line
209 fails and the `stop` branch of lines 373-394 runs. -/
theorem step_after_fired_resolves (cfg : Config) (s : TState) (now I delta u : ℚ) :
    step cfg (firedBody cfg s now I delta) u =
      StepOut.resolved (resolvePayload cfg (firedBody cfg s now I delta) u) := by
  have h0 := firedBody_index_zero cfg s now I delta
  simp only [step, h0]
  rw [if_neg (by simp : ¬(JS.lt (JS.fin 0) (JS.fin 0) = true))]

/-- An unlimited 1 fps thread, used for concrete single-step runs. -/
def cfgOne : Config := { fps := 1, limit := JS.inf, strict := false, speed := 1, start := 0 }

/-- Closure state after the fired tick of `cfgOne` at timestamp 4000:
the overshoot `delta = 4000` against the 1000 ms interval makes
`multiplier = 4`, so the tick update of line 298 adds `round 4 = 4`;
the `TypeError` of line 314 then clears the countdown, and the
post-handler writes (`previousTimestamp`, `tock`, `treshold`) never
run. -/
def bigLagState : TState :=
  { frame := 1, tick := 4, tock := 0, treshold := 4000, previousTimestamp := 0,
    status := Status.dirty, index := JS.fin 0, currentFPS := 1, previousFPS := 1,
    fpsInterval := JS.fin 1000, updateIndex := false, currentSpeed := 1 }

set_option maxHeartbeats 1000000 in
/-- C2: the tick counter does not advance by exactly one per fired
tick, and no fired handler invocation ever occurs.  On the fired tick
of `cfgOne` at timestamp 4000 the overshoot makes `multiplier = 4`, so
line 298 adds `round 4 = 4` to `tick`; the `TypeError` of line 314
then ends the run before `handler(props)` at line 341, and the next
invocation resolves the promise with `tick = 4` — the handler never
observed any tick at all. -/
theorem tick_jump_without_handler_invocation :
    step cfgOne (initState cfgOne) 4000 = StepOut.next bigLagState ∧
    (initState cfgOne).tick = 0 ∧ bigLagState.tick = 4 ∧ (4 : ℤ) ≠ 0 + 1 ∧
    step cfgOne bigLagState 5000 =
      StepOut.resolved (resolvePayload cfgOne bigLagState 5000) ∧
    (resolvePayload cfgOne bigLagState 5000).tick = 4 := by
  refine ⟨?_, rfl, rfl, by decide, ?_, ?_⟩
  · norm_num [step, firedBody, initState, initIndex, fpsAlias, ratTrunc, durationJ,
      jsDivQ, tickLag, strictRescale, defaults, round_eq, JS.truthy, JS.mul, JS.lt,
      cfgOne, bigLagState]
  · norm_num [step, bigLagState]
  · norm_num [resolvePayload, bigLagState]

/-- Closure state after the fired tick of `cfgOne` at timestamp 1600:
a moderate overshoot (`multiplier = 1.6`), so line 292 adds `1` to
`tick`; the `TypeError` of line 314 then clears the countdown, and the
`tock` update of line 345 — dead code — never runs. -/
def modLagState : TState :=
  { frame := 1, tick := 1, tock := 0, treshold := 1600, previousTimestamp := 0,
    status := Status.clean, index := JS.fin 0, currentFPS := 1, previousFPS := 1,
    fpsInterval := JS.fin 1000, updateIndex := false, currentSpeed := 1 }

set_option maxHeartbeats 1000000 in
/-- C8: the `tock` update of line 345 sits in the dead code after
`handler(props)` — the `TypeError` of line 314 is thrown first on
every fired tick — so `tock` keeps its initial `0` while `tick`
advances, and the claim's "after every fired handler invocation" has
no instances.  The run of `cfgOne` fired at timestamp 1600 resolves
with `tick = 1` and `tock = 0`, while
`round(tick / currentRate) = 1 ≠ 0`. -/
theorem tock_never_updated :
    step cfgOne (initState cfgOne) 1600 = StepOut.next modLagState ∧
    step cfgOne modLagState 2600 =
      StepOut.resolved (resolvePayload cfgOne modLagState 2600) ∧
    (resolvePayload cfgOne modLagState 2600).tock = 0 ∧
    round (((resolvePayload cfgOne modLagState 2600).tick : ℚ) /
        fpsAlias cfgOne.fps modLagState.currentFPS) = 1 ∧
    (0 : ℤ) ≠ 1 := by
  refine ⟨?_, ?_, ?_, ?_, by decide⟩
  · norm_num [step, firedBody, initState, initIndex, fpsAlias, ratTrunc, durationJ,
      jsDivQ, tickLag, strictRescale, defaults, round_eq, JS.truthy, JS.mul, JS.lt,
      cfgOne, modLagState]
  · norm_num [step, modLagState]
  · norm_num [resolvePayload, modLagState]
  · norm_num [resolvePayload, modLagState, fpsAlias, ratTrunc, cfgOne, round_eq]

/-- C9: on a fired tick of the scheduler loop the lag of line 242 is
recomputed from the current elapsed time alone (`tickLag delta I =
delta - I`; no lag value survives in the closure state `TState`
between ticks, so lag cannot accumulate across ticks), and whenever
the elapsed time is at most twice the nominal interval, the computed
lag satisfies `0 < lag` and `|lag| ≤ I`. -/
theorem lag_bounded_no_accumulation (cfg : Config) (s : TState) (t I delta : ℚ)
    (hdelta : t - (if s.previousTimestamp ≠ 0 then s.previousTimestamp else cfg.start) = delta)
    (hidx : JS.lt (JS.fin 0) s.index = true)
    (hspeed : s.currentSpeed ≠ 0)
    (hI : s.fpsInterval = JS.fin I)
    (hne : I ≠ 0) (hlt : I < delta)
    (hov : delta ≤ 2 * I) :
    step cfg s t = StepOut.next (firedBody cfg s t I delta) ∧
    0 < tickLag delta I ∧ |tickLag delta I| ≤ I := by
  have hpos : 0 < tickLag delta I := by
    simp only [tickLag]
    linarith
  refine ⟨step_fired_of_guards cfg s t I delta hdelta hidx hspeed hI hne hlt, hpos, ?_⟩
  rw [abs_of_pos hpos]
  simp only [tickLag]
  linarith

/-- C9 witness: the drift bound on the fired tick of `cfgOne` at
timestamp 1800 — `delta = 1800 ≤ 2 * 1000`, and the computed lag `800`
is positive and at most the interval. -/
theorem lag_bounded_no_accumulation_witness :
    step cfgOne (initState cfgOne) 1800 =
      StepOut.next (firedBody cfgOne (initState cfgOne) 1800 1000 1800) ∧
    0 < tickLag 1800 1000 ∧ |tickLag 1800 1000| ≤ 1000 :=
  lag_bounded_no_accumulation cfgOne (initState cfgOne) 1800 1000 1800
    (by norm_num [initState, cfgOne])
    (by norm_num [initState, cfgOne, initIndex, fpsAlias, ratTrunc, JS.mul, JS.lt])
    (by norm_num [initState, cfgOne])
    (by norm_num [initState, cfgOne, ratTrunc])
    (by norm_num) (by norm_num) (by norm_num)

/-- C3: the claim's premise never occurs — the user-supplied handler
is never invoked, because every fired tick throws the `this.smooth`
`TypeError` of line 314 before `handler(props)` at line 341 — so no
handler exception can ever be caught; and the immediate-termination
behaviour the claim attributes to handler exceptions happens instead
on every fired tick, for that `TypeError`: the catch of lines 362-370
clears the countdown, and the invocation after any fired tick resolves
the completion promise, whatever the handler is.  (The catch would
also not terminate the run for a FALSY thrown value — the reset at
lines 363-365 is guarded by `if (exception)` — but the `TypeError` is
truthy, so that path never runs either.) -/
theorem fired_tick_terminates_before_handler (cfg : Config) (s : TState) (t I delta : ℚ)
    (hdelta : t - (if s.previousTimestamp ≠ 0 then s.previousTimestamp else cfg.start) = delta)
    (hidx : JS.lt (JS.fin 0) s.index = true)
    (hspeed : s.currentSpeed ≠ 0)
    (hI : s.fpsInterval = JS.fin I)
    (hne : I ≠ 0) (hlt : I < delta) :
    step cfg s t = StepOut.next (firedBody cfg s t I delta) ∧
    (firedBody cfg s t I delta).index = JS.fin 0 ∧
    ∀ u : ℚ, step cfg (firedBody cfg s t I delta) u =
      StepOut.resolved (resolvePayload cfg (firedBody cfg s t I delta) u) :=
  ⟨step_fired_of_guards cfg s t I delta hdelta hidx hspeed hI hne hlt,
   firedBody_index_zero cfg s t I delta,
   fun u => step_after_fired_resolves cfg s t I delta u⟩

/-- C3 witness: the guards evaluated on the 1 fps thread fired at
timestamp 1600 — the tick fires, the countdown clears, and every later
invocation resolves. -/
theorem fired_tick_terminates_before_handler_witness :
    step cfgOne (initState cfgOne) 1600 =
      StepOut.next (firedBody cfgOne (initState cfgOne) 1600 1000 1600) ∧
    (firedBody cfgOne (initState cfgOne) 1600 1000 1600).index = JS.fin 0 ∧
    ∀ u : ℚ, step cfgOne (firedBody cfgOne (initState cfgOne) 1600 1000 1600) u =
      StepOut.resolved
        (resolvePayload cfgOne (firedBody cfgOne (initState cfgOne) 1600 1000 1600) u) :=
  fired_tick_terminates_before_handler cfgOne (initState cfgOne) 1600 1000 1600
    (by norm_num [initState, cfgOne])
    (by norm_num [initState, cfgOne, initIndex, fpsAlias, ratTrunc, JS.mul, JS.lt])
    (by norm_num [initState, cfgOne])
    (by norm_num [initState, cfgOne, ratTrunc])
    (by norm_num) (by norm_num)

/-- The non-strict bounded run used against C1: 2 fps with a 1-tock
limit (initial countdown `2`, duration `1000` ms). -/
def cfgSmall : Config := { fps := 2, limit := JS.fin 1, strict := false, speed := 1, start := 0 }

/-- Its clock schedule: invocations at 600 ms and 1200 ms. -/
def smallTs : ℕ → ℚ := fun k => 600 + 600 * k

/-- The completion payload of the small run. -/
def smallR : TResult :=
  { frame := 2, fps := 2, multiplier := 1, endT := 1200, first := false,
    index := JS.fin 0, treshold := 600, last := true, previousTimestamp := 0,
    start := 0, status := Status.clean, tick := 1, timestamp := 1200, tock := 0 }

set_option maxHeartbeats 1000000 in
/-- C1: the non-strict run of `cfgSmall` (rate 2, limit 1 tock; the
claim expects `floor(L * r) = 2` handler firings and a completion
`tick` of `2`) resolves on the invocation after its first fired tick:
the `TypeError` of line 314 clears the countdown before
`handler(props)` at line 341 can run, so the handler fires zero times
over the whole run and the completion payload carries `tick = 1`, not
`2` (and `tock = 0`). -/
theorem run_terminates_on_first_fired_tick :
    runFrom cfgSmall smallTs 2 0 (initState cfgSmall) = some smallR ∧
    smallR.tick = 1 ∧ smallR.tick ≠ 2 ∧ smallR.tock = 0 := by
  refine ⟨?_, rfl, by decide, rfl⟩
  norm_num [runFrom, step, firedBody, initState, initIndex, fpsAlias, ratTrunc,
    durationJ, jsDivQ, tickLag, strictRescale, defaults, round_eq, JS.truthy,
    JS.mul, JS.lt, cfgSmall, smallTs, smallR, resolvePayload]

end AnimationThread
